import Mathlib

/-!
Verification development for the field-inspector sync/conflict engine.

Shallow embedding of the Python/Django source under `apps/inspections` and
`apps/sync`:

* `Inspection`, templates, the idempotency ledger (`SyncOperation` rows) and
  the conflict audit log (`ConflictRecord` rows) form a single explicit
  `SysState` record; Django's per-request `transaction.atomic` rollback is
  modelled by the `Except` monad: an `.error` result carries no state, so the
  caller keeps its pre-call state, which is exactly what a rolled-back
  transaction leaves behind.
* `InspectionService.create_inspection` / `update_inspection`
  (apps/inspections/services/inspection_service.py),
  `IdempotencyService` and `BatchSyncService`
  (apps/sync/services.py), the `batch_sync` view and the
  `approve` / `reject` viewset actions (views.py) are translated line by line.
* JSON payloads (`responses`) are modelled as opaque `String`s; UUIDs as `Nat`;
  timestamps as `Nat`.
-/

namespace FieldInspector

/-- Closed status vocabulary of the `Inspection` model
(`STATUS_CHOICES = draft/submitted/rejected/approved`).  The column itself is a
`CharField`; Django does not enforce the choices on `.save()`, and
`update_inspection` assigns the incoming string directly, so `status` is
modelled as `String` and the choice list is used only where a DRF serializer
(`ChoiceField`) actually validates it. -/
def statusChoices : List String := ["draft", "submitted", "rejected", "approved"]

/-- The versioned aggregate (`apps/inspections/models.py`, class `Inspection`).
Fields irrelevant to every claim (photos, timestamps maintained by
`auto_now`, `deleted_at`, `deleted_by`) are omitted. -/
structure Inspection where
  id : Nat
  templateId : Nat
  inspectorId : Nat
  facility_name : String
  facility_address : String
  responses : String
  status : String
  version : Nat
  submitted_at : Option Nat
  approved_by : Option Nat
  approved_at : Option Nat
  approval_notes : Option String
  is_deleted : Bool
  deriving Repr, DecidableEq

/-- The `{"id": ..., "version": ...}` result dict stored in the ledger and
returned by the sync services. -/
structure OpResult where
  rid : Nat
  rversion : Nat
  deriving Repr, DecidableEq

/-- One `SyncOperation` row (`apps/sync/models.py`): the idempotency ledger
entry keyed by the unique `idempotency_key`. -/
structure LedgerEntry where
  idempotency_key : String
  operation_type : String
  entity_id : Nat
  user : Nat
  result : OpResult
  deriving Repr, DecidableEq

/-- A client data dict (`operation["data"]` / the argument `data` of the
service functions).  Every field the source ever reads out of such a dict is
present as an `Option`, `none` meaning the key is absent. -/
structure OpData where
  id : Option Nat := none
  template_id : Option Nat := none
  facility_name : Option String := none
  facility_address : Option String := none
  responses : Option String := none
  status : Option String := none
  version : Option Nat := none
  deriving Repr, DecidableEq

/-- One `ConflictRecord` row (`apps/sync/models.py`): both sides of a detected
version mismatch.  `server_data` is the serialized server snapshot; we keep
the snapshot itself. -/
structure ConflictRec where
  inspectionId : Nat
  client_version_number : Nat
  server_version_number : Nat
  client_data : OpData
  server_data : Inspection
  deriving Repr, DecidableEq

/-- The shared mutable state: existing template ids, the inspection table, the
idempotency ledger and the conflict audit log. -/
structure SysState where
  templates : List Nat
  inspections : List Inspection
  ledger : List LedgerEntry
  conflicts : List ConflictRec
  deriving Repr, DecidableEq

/-- `Inspection.objects` uses a manager that filters `is_deleted=False`;
`.get(id=...)` through it never returns a soft-deleted row. -/
def getInspection (st : SysState) (iid : Nat) : Option Inspection :=
  match st.inspections.find? (fun i => i.id == iid) with
  | some i => if i.is_deleted then none else some i
  | none => none

/-- Row update: `inspection.save()` writes the (single, by pk uniqueness)
row with this id back. -/
def saveInspection (st : SysState) (i : Inspection) : SysState :=
  { st with inspections := st.inspections.map (fun j => if j.id == i.id then i else j) }

/-- Errors raised by the service layer.  `attributeError` models the
`AttributeError` raised when `InspectionService` invokes
`IdempotencyService.set_result`, a method the `IdempotencyService` class in
`apps/sync/services.py` does not define (it only defines `get_result`,
`record` and `exists`). -/
inductive ServiceError where
  | conflictError (snapshot : Inspection) (client_version server_version : Nat)
  | doesNotExist
  | validationError (msg : String)
  | integrityError
  | attributeError
  deriving Repr, DecidableEq

namespace IdempotencyService

/-- `IdempotencyService.exists` (services.py line 58): a filtered existence
check on the unique `idempotency_key` column. -/
def exists_ (st : SysState) (key : String) : Bool :=
  (st.ledger.find? (fun e => e.idempotency_key == key)).isSome

/-- `IdempotencyService.get_result` (services.py line 16): returns the cached
`result` payload, `none` when no row has the key. -/
def get_result (st : SysState) (key : String) : Option OpResult :=
  (st.ledger.find? (fun e => e.idempotency_key == key)).map (fun e => e.result)

/-- `IdempotencyService.record` (services.py line 31): `get_or_create` on the
unique key.  If a row already exists (also when the insert loses the
unique-constraint race and the `IntegrityError` handler re-reads the row),
the stored result is returned and nothing is written; otherwise exactly one
row is inserted and the caller's result returned. -/
def record (st : SysState) (key : String) (operation_type : String) (entity_id : Nat)
    (user : Nat) (result : OpResult) : SysState × OpResult :=
  match st.ledger.find? (fun e => e.idempotency_key == key) with
  | some e => (st, e.result)
  | none =>
      ({ st with ledger := st.ledger ++ [⟨key, operation_type, entity_id, user, result⟩] },
       result)

end IdempotencyService

namespace InspectionService

/-- Lines 133–151 of `inspection_service.py`: the per-field partial patch.
Only keys present in `data` are touched; a `draft → submitted` status change
additionally stamps `submitted_at = now`, and the status string is assigned
with no transition validation. -/
def applyFields (i : Inspection) (data : OpData) (now : Nat) : Inspection :=
  let i := match data.facility_name with
    | some v => { i with facility_name := v }
    | none => i
  let i := match data.facility_address with
    | some v => { i with facility_address := v }
    | none => i
  let i := match data.responses with
    | some v => { i with responses := v }
    | none => i
  match data.status with
  | some s =>
      let i := if s == "submitted" && i.status == "draft"
        then { i with submitted_at := some now } else i
      { i with status := s }
  | none => i

/-- `InspectionService.update_inspection` (inspection_service.py lines 92–168).
Order of the source: idempotency short-circuit, locked read, version check
(raising `ConflictError` before any write), partial patch, `version += 1`,
save, then — only when an idempotency key was supplied — the call to the
undefined `IdempotencyService.set_result`, whose `AttributeError` aborts the
`@transaction.atomic` block, discarding the saved state. -/
def update_inspection (st : SysState) (inspection_id : Nat) (data : OpData)
    (client_version : Nat) (idempotency_key : Option String) (now : Nat) :
    Except ServiceError (SysState × Inspection) :=
  let cached := match idempotency_key with
    | some k => IdempotencyService.exists_ st k
    | none => false
  if cached then
    match getInspection st inspection_id with
    | some i => .ok (st, i)
    | none => .error .doesNotExist
  else
    match getInspection st inspection_id with
    | none => .error .doesNotExist
    | some inspection =>
        if inspection.version ≠ client_version then
          .error (.conflictError inspection client_version inspection.version)
        else
          let i' := { applyFields inspection data now with version := inspection.version + 1 }
          let st' := saveInspection st i'
          match idempotency_key with
          | some _ => .error .attributeError
          | none => .ok (st', i')

/-- `InspectionService.create_inspection` (inspection_service.py lines 30–90).
The idempotency short-circuit re-reads the entity named by the cached result;
a missing template raises `ValidationError`; `objects.create` with an
explicit `id=None` or `facility_name=None` inserts NULL into a non-null
column (`IntegrityError`), as does a duplicate identifier; and a supplied
fresh idempotency key reaches the undefined `set_result`
(`AttributeError`, rolling the insert back). -/
def create_inspection (st : SysState) (data : OpData) (user : Nat)
    (idempotency_key : Option String) : Except ServiceError (SysState × Inspection) :=
  let cached := match idempotency_key with
    | some k => IdempotencyService.get_result st k
    | none => none
  match cached with
  | some r =>
      (match getInspection st r.rid with
       | some i => .ok (st, i)
       | none => .error .doesNotExist)
  | none =>
      match data.template_id with
      | none => .error (.validationError "Template None not found")
      | some tid =>
          if ¬ st.templates.contains tid then
            .error (.validationError ("Template " ++ toString tid ++ " not found"))
          else
            match data.id, data.facility_name with
            | some iid, some fname =>
                if st.inspections.any (fun j => j.id == iid) then .error .integrityError
                else
                  let inspection : Inspection :=
                    { id := iid, templateId := tid, inspectorId := user,
                      facility_name := fname,
                      facility_address := data.facility_address.getD "",
                      responses := data.responses.getD "",
                      status := data.status.getD "draft",
                      version := 1,
                      submitted_at := none, approved_by := none, approved_at := none,
                      approval_notes := none, is_deleted := false }
                  let st' := { st with inspections := st.inspections ++ [inspection] }
                  match idempotency_key with
                  | some _ => .error .attributeError
                  | none => .ok (st', inspection)
            | _, _ => .error .integrityError

end InspectionService

/-- Errors propagated out of `BatchSyncService.process_operation`:
`ConflictError` is caught specially in `process_batch`; every other exception
(`ValidationError`, `ValueError`, serializer errors, ...) falls into the
generic `except Exception` branch and is carried as a message string. -/
inductive OpError where
  | conflict (snapshot : Inspection) (client_version server_version : Nat)
  | err (msg : String)
  deriving Repr, DecidableEq

/-- `CreateInspectionSerializer` validation (apps/inspections/serializers.py):
`template_id` is a required `PrimaryKeyRelatedField` over the template
queryset; `facility_name`, `facility_address` and `responses` are required
model fields; `status` must be one of the model's choices when present. -/
def createSerializerValid (st : SysState) (d : OpData) : Bool :=
  (match d.template_id with
   | some tid => st.templates.contains tid
   | none => false) &&
  d.facility_name.isSome && d.facility_address.isSome && d.responses.isSome &&
  (match d.status with
   | some s => statusChoices.contains s
   | none => true)

/-- `CreateInspectionSerializer.validated_data`: the serializer's field list
has no `id`, and `template_id` is declared with `source="template"`, so the
validated dict exposes the template under the key `template` — a key
`create_inspection` never reads — and carries no `id` or `template_id`. -/
def createValidatedData (d : OpData) : OpData :=
  { d with id := none, template_id := none }

/-- `UpdateInspectionSerializer` validation: `facility_name`,
`facility_address` and `responses` are required; `status` must be a model
choice when present; `version` is optional (the model field has a default)
but `validate_version` rejects a falsy provided value (0). -/
def updateSerializerValid (d : OpData) : Bool :=
  d.facility_name.isSome && d.facility_address.isSome && d.responses.isSome &&
  (match d.status with
   | some s => statusChoices.contains s
   | none => true) &&
  (match d.version with
   | some v => v ≠ 0
   | none => true)

/-- Lift a `ServiceError` escaping `process_operation`'s dispatch into the
batch error taxonomy: `ConflictError` keeps its payload, everything else is
stringified by the generic handler. -/
def liftServiceError : ServiceError → OpError
  | .conflictError s cv sv => .conflict s cv sv
  | .doesNotExist => .err "Inspection matching query does not exist."
  | .validationError m => .err m
  | .integrityError => .err "IntegrityError"
  | .attributeError => .err "AttributeError"

namespace BatchSyncService

/-- `BatchSyncService.process_operation` (apps/sync/services.py lines
157–203): ledger lookup first (`if cached_result:` — stored results are
non-empty dicts, hence truthy), then dispatch on `operation_type` through the
DRF serializers into `InspectionService` (never passing the idempotency key
down), then `IdempotencyService.record`; the function returns its *local*
`result`, ignoring `record`'s return value. -/
def process_operation (st : SysState) (operation_type : String)
    (idempotency_key : String) (data : OpData) (user : Nat) (now : Nat) :
    Except OpError (SysState × OpResult) :=
  match IdempotencyService.get_result st idempotency_key with
  | some cached => .ok (st, cached)
  | none =>
      let dispatched : Except OpError (SysState × OpResult) :=
        if operation_type == "CREATE_INSPECTION" then
          if ¬ createSerializerValid st data then
            .error (.err "serializer invalid")
          else
            match InspectionService.create_inspection st (createValidatedData data) user none with
            | .ok (st', i) => .ok (st', ⟨i.id, i.version⟩)
            | .error e => .error (liftServiceError e)
        else if operation_type == "UPDATE_INSPECTION" then
          if ¬ updateSerializerValid data then
            .error (.err "serializer invalid")
          else
            match data.id with
            | none => .error (.err "Missing 'id' field for UPDATE_INSPECTION")
            | some inspection_id =>
                match data.version with
                | none => .error (.err "Missing 'id' field for UPDATE_INSPECTION")
                | some client_version =>
                    if client_version == 0 then
                      .error (.err "Missing 'id' field for UPDATE_INSPECTION")
                    else
                      match InspectionService.update_inspection st inspection_id data
                          client_version none now with
                      | .ok (st', i) => .ok (st', ⟨i.id, i.version⟩)
                      | .error e => .error (liftServiceError e)
        else
          .error (.err ("Invalid operation type: " ++ operation_type))
      match dispatched with
      | .error e => .error e
      | .ok (st', result) =>
          let (st'', _) := IdempotencyService.record st' idempotency_key operation_type
            result.rid user result
          .ok (st'', result)

end BatchSyncService

/-- One operation of a batch request:
`{operation_type, idempotency_key, data}`. -/
structure RawOp where
  operation_type : String
  idempotency_key : String
  data : OpData
  deriving Repr, DecidableEq

/-- Per-item outcome appended to `results` in
`BatchSyncService.process_batch`.  A success dict carries
`index`/`success=True`/`data`; a conflict dict carries `success=False`,
`error="conflict"`, the version pair and the server snapshot (its positional
field is keyed `"id"` in the source, not `"index"`); a generic failure dict
carries `index`/`success=False` and the stringified exception. -/
inductive BatchResult where
  | success (index : Nat) (data : OpResult) (idempotency_key : String)
      (operation_type : String)
  | conflictRes (index : Nat) (idempotency_key : String) (operation_type : String)
      (client_version server_version : Nat) (server_data : Inspection)
  | errorRes (index : Nat) (errMsg : String) (idempotency_key : String)
      (operation_type : String)
  deriving Repr, DecidableEq

/-- The `success` flag of the result dict. -/
def BatchResult.isSuccess : BatchResult → Bool
  | .success .. => true
  | _ => false

/-- The outcome tag: `success`, `conflict` (the dict with
`error="conflict"`), or `error`. -/
def BatchResult.tag : BatchResult → String
  | .success .. => "success"
  | .conflictRes .. => "conflict"
  | .errorRes .. => "error"

/-- Positional index stored in the result dict. -/
def BatchResult.index : BatchResult → Nat
  | .success i _ _ _ => i
  | .conflictRes i _ _ _ _ _ => i
  | .errorRes i _ _ _ => i

/-- Idempotency key echoed in the result dict. -/
def BatchResult.key : BatchResult → String
  | .success _ _ k _ => k
  | .conflictRes _ k _ _ _ _ => k
  | .errorRes _ _ k _ => k

namespace BatchSyncService

/-- One iteration of the loop in `process_batch` (services.py lines 79–153):
run `process_operation`; on success append a success dict; on `ConflictError`
create a `ConflictRecord` row and append the conflict dict; on any other
exception append an error dict.  Caught exceptions roll back only the
operation's own inner atomic block, so the failing item contributes no
inspection/ledger change. -/
def processItem (st : SysState) (idx : Nat) (op : RawOp) (user : Nat) (now : Nat) :
    SysState × BatchResult :=
  match process_operation st op.operation_type op.idempotency_key op.data user now with
  | .ok (st', r) =>
      (st', .success idx r op.idempotency_key op.operation_type)
  | .error (.conflict snap cv sv) =>
      ({ st with conflicts := st.conflicts ++ [⟨snap.id, cv, sv, op.data, snap⟩] },
       .conflictRes idx op.idempotency_key op.operation_type cv sv snap)
  | .error (.err m) =>
      (st, .errorRes idx m op.idempotency_key op.operation_type)

/-- The indexed loop of `process_batch`, threading the state left to right
and collecting the per-item dicts in input order. -/
def processBatchAux (st : SysState) (idx : Nat) (ops : List RawOp) (user : Nat)
    (now : Nat) : SysState × List BatchResult :=
  match ops with
  | [] => (st, [])
  | op :: rest =>
      let p := processItem st idx op user now
      let q := processBatchAux p.1 (idx + 1) rest user now
      (q.1, p.2 :: q.2)

/-- `BatchSyncService.process_batch` (services.py lines 70–155). -/
def process_batch (st : SysState) (ops : List RawOp) (user : Nat) (now : Nat) :
    SysState × List BatchResult :=
  processBatchAux st 0 ops user now

end BatchSyncService

/-- Errors surfaced by the `batch_sync` view before any processing:
serializer validation failures (HTTP 400 via `raise_exception=True`) and the
view's own explicit 400. -/
inductive ApiError where
  | validationError (msg : String)
  | badRequest (msg : String)
  deriving Repr, DecidableEq

/-- `BatchSyncOperationSerializer` item validation
(apps/sync/serializers.py lines 56–63): `operation_type` is a `ChoiceField`
restricted to `CREATE_INSPECTION`/`UPDATE_INSPECTION`; `idempotency_key` is a
required non-blank `CharField` of length ≤ 255; `data` is required (always
present in `RawOp`). -/
def batchItemValid (op : RawOp) : Bool :=
  (op.operation_type == "CREATE_INSPECTION" || op.operation_type == "UPDATE_INSPECTION") &&
  op.idempotency_key ≠ "" && op.idempotency_key.length ≤ 255

/-- The `batch_sync` view (apps/sync/views.py lines 25–69), rate limiting
aside: `BatchSyncRequestSerializer` first validates every item (child
serializer), then `validate_operations` caps the list at 100; the view then
re-checks the cap (unreachably) and finally runs `process_batch`, answering
207 when any item failed, 200 otherwise. -/
def batch_sync (st : SysState) (ops : List RawOp) (user : Nat) (now : Nat) :
    Except ApiError (SysState × List BatchResult × Nat) :=
  if ¬ ops.all batchItemValid then
    .error (.validationError "operation_type is not a valid choice")
  else if ops.length > 100 then
    .error (.validationError "Maximum 100 operations per batch")
  else if ops.length > 100 then
    .error (.badRequest "Maximum 100 operations per batch")
  else
    let p := BatchSyncService.process_batch st ops user now
    .ok (p.1, p.2, if p.2.any (fun r => ¬ r.isSuccess) then 207 else 200)

/-- The `approve` action (apps/inspections/views.py lines 282–303).  Only a
`submitted` inspection passes the guard; the handler then sets
`status`/`approved_by`/`approved_at`/`approval_notes` on the in-memory
instance but the `inspection.save()` line is commented out:
`increment_version()` persists *only* `version = version + 1`
(`save(update_fields=["version"])`) and `refresh_from_db()` then reloads the
instance from the row, discarding the unsaved field assignments.  The
serialized response therefore shows the stored row with only the version
bumped.  No client-supplied version is consulted anywhere on this path. -/
def approve (st : SysState) (pk : Nat) (_user : Nat) (_now : Nat) (_notes : String) :
    Except ApiError (SysState × Inspection) :=
  match getInspection st pk with
  | none => .error (.badRequest "not found")
  | some inspection =>
      if inspection.status ≠ "submitted" then
        .error (.badRequest "Only submitted inspections can be approved.")
      else
        let persisted := { inspection with version := inspection.version + 1 }
        .ok (saveInspection st persisted, persisted)

/-- The `reject` action (views.py lines 305–326): identical shape to
`approve` — the `submitted` guard, unsaved in-memory assignments, and
`increment_version()` persisting only the version bump. -/
def reject (st : SysState) (pk : Nat) (_user : Nat) (_now : Nat) (_notes : String) :
    Except ApiError (SysState × Inspection) :=
  match getInspection st pk with
  | none => .error (.badRequest "not found")
  | some inspection =>
      if inspection.status ≠ "submitted" then
        .error (.badRequest "Only submitted inspections can be rejected.")
      else
        let persisted := { inspection with version := inspection.version + 1 }
        .ok (saveInspection st persisted, persisted)

/-! ### Concrete fixtures used by counterexamples and witnesses -/

/-- A draft inspection at version 1. -/
def insp1 : Inspection :=
  { id := 1, templateId := 10, inspectorId := 7,
    facility_name := "Plant A", facility_address := "1 Way",
    responses := "r0", status := "draft", version := 1,
    submitted_at := none, approved_by := none, approved_at := none,
    approval_notes := none, is_deleted := false }

/-- Base state: one template, one draft inspection, empty ledger and
conflict log. -/
def baseState : SysState :=
  { templates := [10], inspections := [insp1], ledger := [], conflicts := [] }

/-! ### Helper lemmas about the embedded operations -/

theorem applyFields_id (i : Inspection) (d : OpData) (n : Nat) :
    (InspectionService.applyFields i d n).id = i.id := by
  unfold InspectionService.applyFields
  cases d.facility_name <;> cases d.facility_address <;> cases d.responses <;>
    cases d.status <;> simp <;> split <;> simp

theorem applyFields_is_deleted (i : Inspection) (d : OpData) (n : Nat) :
    (InspectionService.applyFields i d n).is_deleted = i.is_deleted := by
  unfold InspectionService.applyFields
  cases d.facility_name <;> cases d.facility_address <;> cases d.responses <;>
    cases d.status <;> simp <;> split <;> simp

theorem applyFields_status (i : Inspection) (d : OpData) (n : Nat) (s : String)
    (h : d.status = some s) :
    (InspectionService.applyFields i d n).status = s := by
  unfold InspectionService.applyFields
  cases d.facility_name <;> cases d.facility_address <;> cases d.responses <;>
    simp [h]

theorem applyFields_submitted_at (i : Inspection) (d : OpData) (n : Nat) (s : String)
    (h : d.status = some s) :
    (InspectionService.applyFields i d n).submitted_at =
      (if s == "submitted" && i.status == "draft" then some n else i.submitted_at) := by
  unfold InspectionService.applyFields
  cases d.facility_name <;> cases d.facility_address <;> cases d.responses <;>
    simp [h] <;> split <;> simp

theorem getInspection_eq_some {st : SysState} {iid : Nat} {insp : Inspection}
    (h : getInspection st iid = some insp) :
    insp.id = iid ∧ insp.is_deleted = false := by
  unfold getInspection at h
  cases hf : st.inspections.find? (fun i => i.id == iid) with
  | none => rw [hf] at h; exact absurd h (by simp)
  | some j =>
      rw [hf] at h
      have hj := List.find?_some hf
      by_cases hd : j.is_deleted
      · simp [hd] at h
      · simp [hd] at h
        subst h
        exact ⟨by simpa using hj, by simpa using hd⟩

theorem find?_map_save {l : List Inspection} {iid : Nat} {insp i' : Inspection}
    (hf : l.find? (fun j => j.id == iid) = some insp) (hid : i'.id = iid) :
    (l.map (fun j => if j.id == i'.id then i' else j)).find? (fun j => j.id == iid) =
      some i' := by
  rw [List.find?_map]
  have hcomp : ((fun j : Inspection => j.id == iid) ∘
      (fun j => if j.id == i'.id then i' else j)) = fun j => j.id == iid := by
    funext j
    by_cases h : j.id = i'.id
    · simp [h, hid]
    · simp [h]
  rw [hcomp, hf]
  have hiid : insp.id = iid := by simpa using List.find?_some hf
  simp [hiid, hid]

theorem getInspection_save {st : SysState} {iid : Nat} {insp i' : Inspection}
    (hg : getInspection st iid = some insp) (hid : i'.id = iid)
    (hdel : i'.is_deleted = false) :
    getInspection (saveInspection st i') iid = some i' := by
  unfold getInspection at hg ⊢
  cases hf : st.inspections.find? (fun i => i.id == iid) with
  | none => rw [hf] at hg; exact absurd hg (by simp)
  | some j =>
      rw [hf] at hg
      unfold saveInspection
      simp only
      rw [find?_map_save hf hid]
      simp [hdel]

theorem find?_ledger_append_none {l : List LedgerEntry} {k : String}
    (h : l.find? (fun e => e.idempotency_key == k) = none) (e : LedgerEntry)
    (he : e.idempotency_key = k) :
    (l ++ [e]).find? (fun x => x.idempotency_key == k) = some e := by
  induction l with
  | nil => simp [List.find?, he]
  | cons a rest ih =>
      rw [List.find?] at h
      cases hA : (a.idempotency_key == k) with
      | true => rw [hA] at h; simp at h
      | false =>
          rw [hA] at h
          simp only [List.cons_append, List.find?, hA]
          exact ih h

/-- C7 witness state: ledger already holding key `"k1"`. -/
def ledgerState : SysState :=
  { templates := [10], inspections := [insp1],
    ledger := [⟨"k1", "UPDATE_INSPECTION", 1, 7, ⟨1, 2⟩⟩], conflicts := [] }

/-- **C7.** For every call to `IdempotencyService.record`: when no row exists
for the key, exactly one row is inserted (atomic insert-if-absent via
`get_or_create` / the `IntegrityError` fallback) and the caller's result is
stored and returned; when a row already exists, the stored result is read back
and returned instead of the caller's local value and the ledger is unchanged;
and distinctness of ledger keys (at most one record per key) is preserved. -/
theorem C7_record_first_writer_wins (st : SysState) (k ot : String) (eid u : Nat)
    (r : OpResult) :
    (∀ e, st.ledger.find? (fun x => x.idempotency_key == k) = some e →
        IdempotencyService.record st k ot eid u r = (st, e.result))
    ∧ (st.ledger.find? (fun x => x.idempotency_key == k) = none →
        IdempotencyService.record st k ot eid u r =
          ({ st with ledger := st.ledger ++ [⟨k, ot, eid, u, r⟩] }, r))
    ∧ ((st.ledger.map LedgerEntry.idempotency_key).Nodup →
        ((IdempotencyService.record st k ot eid u r).1.ledger.map
          LedgerEntry.idempotency_key).Nodup) := by
  refine ⟨?_, ?_, ?_⟩
  · intro e he
    unfold IdempotencyService.record
    rw [he]
  · intro hn
    unfold IdempotencyService.record
    rw [hn]
  · intro hnd
    unfold IdempotencyService.record
    cases hf : st.ledger.find? (fun x => x.idempotency_key == k) with
    | some e => simpa using hnd
    | none =>
        simp only [List.map_append, List.map_cons, List.map_nil]
        rw [List.nodup_append]
        refine ⟨hnd, by simp, ?_⟩
        intro a ha hb
        simp at hb
        subst hb
        have := List.find?_eq_none.mp hf
        rcases List.mem_map.mp ha with ⟨e, hmem, hkey⟩
        have := this e hmem
        simp [hkey] at this

/-- C7 witness: at a concrete state, the existing-key branch returns the
stored result unchanged, and the fresh-key branch inserts exactly one row. -/
theorem C7_record_first_writer_wins_witness :
    IdempotencyService.record ledgerState "k1" "CREATE_INSPECTION" 3 9 ⟨3, 7⟩ =
      (ledgerState, ⟨1, 2⟩)
    ∧ IdempotencyService.record baseState "k9" "CREATE_INSPECTION" 3 9 ⟨3, 7⟩ =
      ({ baseState with
          ledger := baseState.ledger ++ [⟨"k9", "CREATE_INSPECTION", 3, 9, ⟨3, 7⟩⟩] },
        ⟨3, 7⟩) := by
  constructor
  · exact (C7_record_first_writer_wins ledgerState "k1" "CREATE_INSPECTION" 3 9 ⟨3, 7⟩).1
      ⟨"k1", "UPDATE_INSPECTION", 1, 7, ⟨1, 2⟩⟩ (by decide)
  · exact (C7_record_first_writer_wins baseState "k9" "CREATE_INSPECTION" 3 9 ⟨3, 7⟩).2.1
      (by decide)

/-- State for the C1 counterexample: the target inspection is at version 2
and the ledger already holds the request's idempotency key. -/
def cachedState : SysState :=
  { templates := [10], inspections := [{ insp1 with version := 2 }],
    ledger := [⟨"k1", "UPDATE_INSPECTION", 1, 7, ⟨1, 2⟩⟩], conflicts := [] }

/-- **C1 (counterexample).** The claim says *every* update whose supplied
`clientVersion` differs from the stored version raises `VersionConflict`.
Here the stored version is 2 and the client sends 1, yet the call returns
`ok` with the untouched aggregate and raises nothing: the idempotency
short-circuit at the top of `update_inspection` returns before the version
is ever compared. -/
theorem C1_cached_key_mismatch_counterexample :
    InspectionService.update_inspection cachedState 1 { facility_name := some "New" } 1
        (some "k1") 0 =
      Except.ok (cachedState, { insp1 with version := 2 })
    ∧ (getInspection cachedState 1).map Inspection.version = some 2 := by
  constructor
  · rfl
  · rfl

/-- **C1 (amended).** For every update whose idempotency key is absent from
the ledger (or not supplied): a `clientVersion` mismatch raises
`ConflictError` carrying both version numbers and the current server
snapshot, with the aggregate unmutated (the `.error` return discards the
transaction's state); when `clientVersion` equals the stored version *and no
idempotency key is supplied*, the mutation is applied, the version
incremented by 1, and the new aggregate returned.  (With a fresh key and an
equal version the call instead dies in the missing `set_result` — see
C10.) -/
theorem C1_occ_update_amended (st : SysState) (iid : Nat) (data : OpData) (cv : Nat)
    (key : Option String) (now : Nat) (insp : Inspection)
    (hget : getInspection st iid = some insp)
    (hkey : ∀ k, key = some k → IdempotencyService.exists_ st k = false) :
    (insp.version ≠ cv →
        InspectionService.update_inspection st iid data cv key now =
          Except.error (ServiceError.conflictError insp cv insp.version))
    ∧ (insp.version = cv → key = none →
        InspectionService.update_inspection st iid data cv key now =
          Except.ok
            (saveInspection st
              { InspectionService.applyFields insp data now with version := insp.version + 1 },
             { InspectionService.applyFields insp data now with
                version := insp.version + 1 })) := by
  cases key with
  | none =>
      constructor
      · intro hne
        simp [InspectionService.update_inspection, hget, hne]
      · intro heq _
        subst heq
        simp [InspectionService.update_inspection, hget]
  | some k =>
      have hex := hkey k rfl
      constructor
      · intro hne
        simp [InspectionService.update_inspection, hget, hne, hex]
      · intro _ hk
        exact absurd hk (by simp)

/-- C1 witness: at the base state, client version 3 against stored version 1
conflicts with both versions and the snapshot reported; client version 1
with no key succeeds. -/
theorem C1_occ_update_amended_witness :
    (InspectionService.update_inspection baseState 1 { facility_name := some "New" } 3
        none 0 =
      Except.error (ServiceError.conflictError insp1 3 insp1.version))
    ∧ (InspectionService.update_inspection baseState 1 { facility_name := some "New" }
        insp1.version none 0 =
      Except.ok
        (saveInspection baseState
          { InspectionService.applyFields insp1 { facility_name := some "New" } 0 with
              version := insp1.version + 1 },
         { InspectionService.applyFields insp1 { facility_name := some "New" } 0 with
            version := insp1.version + 1 })) := by
  constructor
  · exact (C1_occ_update_amended baseState 1 { facility_name := some "New" } 3 none 0
      insp1 rfl (fun k h => by cases h)).1 (by decide)
  · exact (C1_occ_update_amended baseState 1 { facility_name := some "New" }
      insp1.version none 0 insp1 rfl (fun k h => by cases h)).2 rfl rfl

/-- State for the C5 counterexample: the inspection is already `approved`. -/
def approvedState : SysState :=
  { templates := [10], inspections := [{ insp1 with status := "approved" }],
    ledger := [], conflicts := [] }

/-- **C5 (counterexample).** The claim says an update attempting
`approved → draft` fails with `InvalidStateTransition` and leaves the version
unchanged.  In the code no status-transition validation exists at all: the
update is accepted, the status becomes `draft` and the version advances from
1 to 2. -/
theorem C5_transition_counterexample :
    (InspectionService.update_inspection approvedState 1 { status := some "draft" } 1
        none 0).toOption.map (fun p => (p.2.status, p.2.version)) =
      some ("draft", 2) := by
  rfl

/-- **C5 (amended).** `update_inspection` performs no status-transition
validation: for every stored status and every requested status value `s`, an
update carrying `s` with a matching client version succeeds, sets the status
to `s`, increments the version by exactly 1, and stamps `submitted_at = now`
exactly when the transition is `draft → submitted`.  (Only the separate
`approve`/`reject` endpoints check the current status, and the soft-delete
endpoint requires status `draft`.) -/
theorem C5_transition_amended (st : SysState) (iid : Nat) (insp : Inspection)
    (data : OpData) (s : String) (now : Nat)
    (hget : getInspection st iid = some insp)
    (hs : data.status = some s) :
    InspectionService.update_inspection st iid data insp.version none now =
      Except.ok
        (saveInspection st
          { InspectionService.applyFields insp data now with version := insp.version + 1 },
         { InspectionService.applyFields insp data now with version := insp.version + 1 })
    ∧ ({ InspectionService.applyFields insp data now with
          version := insp.version + 1 } : Inspection).status = s
    ∧ ({ InspectionService.applyFields insp data now with
          version := insp.version + 1 } : Inspection).version = insp.version + 1
    ∧ ({ InspectionService.applyFields insp data now with
          version := insp.version + 1 } : Inspection).submitted_at =
        (if s == "submitted" && insp.status == "draft" then some now
         else insp.submitted_at) := by
  refine ⟨?_, ?_, rfl, ?_⟩
  · simp [InspectionService.update_inspection, hget]
  · exact applyFields_status insp data now s hs
  · exact applyFields_submitted_at insp data now s hs

/-- C5 witness: submitting the draft inspection at the base state applies the
status, bumps the version to 2 and stamps `submitted_at`. -/
theorem C5_transition_amended_witness :
    InspectionService.update_inspection baseState 1 { status := some "submitted" }
        insp1.version none 5 =
      Except.ok
        (saveInspection baseState
          { InspectionService.applyFields insp1 { status := some "submitted" } 5 with
              version := insp1.version + 1 },
         { InspectionService.applyFields insp1 { status := some "submitted" } 5 with
            version := insp1.version + 1 })
    ∧ ({ InspectionService.applyFields insp1 { status := some "submitted" } 5 with
          version := insp1.version + 1 } : Inspection).status = "submitted"
    ∧ ({ InspectionService.applyFields insp1 { status := some "submitted" } 5 with
          version := insp1.version + 1 } : Inspection).version = insp1.version + 1
    ∧ ({ InspectionService.applyFields insp1 { status := some "submitted" } 5 with
          version := insp1.version + 1 } : Inspection).submitted_at =
        (if "submitted" == "submitted" && insp1.status == "draft" then some 5
         else insp1.submitted_at) :=
  C5_transition_amended baseState 1 insp1 { status := some "submitted" } "submitted" 5
    rfl rfl

/-- **C10.** A direct call to `InspectionService.update_inspection` or
`create_inspection` with a non-`None` idempotency key that is not yet in the
ledger can never complete successfully: after applying the mutation the
ledger-write step invokes `IdempotencyService.set_result`, a method the
`IdempotencyService` class does not define, so an `AttributeError` is raised
and the surrounding `transaction.atomic` block rolls the mutation back
(modelled by the `.error` return discarding the mutated state). -/
theorem C10_fresh_key_attribute_error :
    (∀ st iid data cv k now insp,
        IdempotencyService.exists_ st k = false →
        getInspection st iid = some insp → insp.version = cv →
        InspectionService.update_inspection st iid data cv (some k) now =
          Except.error ServiceError.attributeError)
    ∧ (∀ st iid data cv k now p,
        IdempotencyService.exists_ st k = false →
        InspectionService.update_inspection st iid data cv (some k) now ≠ Except.ok p)
    ∧ (∀ st data u k tid iid fname,
        IdempotencyService.get_result st k = none →
        data.template_id = some tid → st.templates.contains tid = true →
        data.id = some iid → data.facility_name = some fname →
        st.inspections.any (fun j => j.id == iid) = false →
        InspectionService.create_inspection st data u (some k) =
          Except.error ServiceError.attributeError)
    ∧ (∀ st data u k p,
        IdempotencyService.get_result st k = none →
        InspectionService.create_inspection st data u (some k) ≠ Except.ok p) := by
  refine ⟨?_, ?_, ?_, ?_⟩
  · intro st iid data cv k now insp hex hget heq
    subst heq
    simp [InspectionService.update_inspection, hex, hget]
  · intro st iid data cv k now p hex
    simp only [InspectionService.update_inspection, hex]
    cases hg : getInspection st iid with
    | none => simp [hg]
    | some insp =>
        simp only [hg]
        split
        · next h => exact absurd h (by simp)
        · split <;> simp
  · intro st data u k tid iid fname hres htid hcontains hid hname hfresh
    have hmem : tid ∈ st.templates := by simpa using hcontains
    simp [InspectionService.create_inspection, hres, htid, hmem, hid, hname, hfresh]
  · intro st data u k p hres
    simp only [InspectionService.create_inspection, hres]
    cases htid : data.template_id with
    | none => simp
    | some tid =>
        simp only
        split
        · simp
        · cases hid : data.id with
          | none => cases hname : data.facility_name <;> simp
          | some iid =>
              cases hname : data.facility_name with
              | none => simp
              | some fname =>
                  simp only
                  split <;> simp

/-- C10 witness: at the base state with the fresh key `"k9"`, an update with
the matching version 1 and a create of a new inspection both fail with
`AttributeError`, and neither returns `ok`. -/
theorem C10_fresh_key_attribute_error_witness :
    (InspectionService.update_inspection baseState 1 { facility_name := some "New" } 1
        (some "k9") 0 = Except.error ServiceError.attributeError)
    ∧ (InspectionService.create_inspection baseState
        { id := some 2, template_id := some 10, facility_name := some "Plant B" } 7
        (some "k9") = Except.error ServiceError.attributeError) := by
  constructor
  · exact C10_fresh_key_attribute_error.1 baseState 1 { facility_name := some "New" } 1
      "k9" 0 insp1 (by decide) rfl (by decide)
  · exact C10_fresh_key_attribute_error.2.2.1 baseState
      { id := some 2, template_id := some 10, facility_name := some "Plant B" } 7 "k9"
      10 2 "Plant B" rfl rfl (by decide) rfl rfl (by decide)

/-! ### Inversion lemmas for the mutation paths -/

theorem update_none_ok_inv {st : SysState} {iid : Nat} {data : OpData} {cv now : Nat}
    {st' : SysState} {i' : Inspection}
    (h : InspectionService.update_inspection st iid data cv none now =
      Except.ok (st', i')) :
    ∃ insp, getInspection st iid = some insp ∧ insp.version = cv ∧
      i' = { InspectionService.applyFields insp data now with version := insp.version + 1 } ∧
      st' = saveInspection st i' := by
  cases hg : getInspection st iid with
  | none => simp [InspectionService.update_inspection, hg] at h
  | some insp =>
      by_cases hv : insp.version = cv
      · subst hv
        simp [InspectionService.update_inspection, hg] at h
        obtain ⟨h1, h2⟩ := h
        subst h1
        subst h2
        exact ⟨insp, rfl, rfl, rfl, rfl⟩
      · simp [InspectionService.update_inspection, hg, hv] at h

theorem update_fresh_some_not_ok {st : SysState} {iid : Nat} {data : OpData}
    {cv : Nat} {k : String} {now : Nat} {p : SysState × Inspection}
    (hex : IdempotencyService.exists_ st k = false) :
    InspectionService.update_inspection st iid data cv (some k) now ≠ Except.ok p := by
  simp only [InspectionService.update_inspection, hex]
  cases hg : getInspection st iid with
  | none => simp [hg]
  | some insp =>
      simp only [hg]
      split
      · next h => exact absurd h (by simp)
      · split <;> simp

theorem approve_ok_inv {st : SysState} {pk u now : Nat} {notes : String}
    {st' : SysState} {i' : Inspection}
    (h : approve st pk u now notes = Except.ok (st', i')) :
    ∃ insp, getInspection st pk = some insp ∧ insp.status = "submitted" ∧
      i' = { insp with version := insp.version + 1 } ∧ st' = saveInspection st i' := by
  cases hg : getInspection st pk with
  | none => simp [approve, hg] at h
  | some insp =>
      by_cases hs : insp.status = "submitted"
      · simp only [approve, hg] at h
        rw [if_neg (fun hne => hne hs)] at h
        simp only [Except.ok.injEq, Prod.mk.injEq] at h
        obtain ⟨h1, h2⟩ := h
        subst h1
        subst h2
        exact ⟨insp, rfl, hs, rfl, rfl⟩
      · simp [approve, hg, hs] at h

theorem reject_ok_inv {st : SysState} {pk u now : Nat} {notes : String}
    {st' : SysState} {i' : Inspection}
    (h : reject st pk u now notes = Except.ok (st', i')) :
    ∃ insp, getInspection st pk = some insp ∧ insp.status = "submitted" ∧
      i' = { insp with version := insp.version + 1 } ∧ st' = saveInspection st i' := by
  cases hg : getInspection st pk with
  | none => simp [reject, hg] at h
  | some insp =>
      by_cases hs : insp.status = "submitted"
      · simp only [reject, hg] at h
        rw [if_neg (fun hne => hne hs)] at h
        simp only [Except.ok.injEq, Prod.mk.injEq] at h
        obtain ⟨h1, h2⟩ := h
        subst h1
        subst h2
        exact ⟨insp, rfl, hs, rfl, rfl⟩
      · simp [reject, hg, hs] at h

/-- State for the C6 counterexample: a `submitted` inspection at version 5. -/
def submittedState : SysState :=
  { templates := [10], inspections := [{ insp1 with status := "submitted", version := 5 }],
    ledger := [], conflicts := [] }

/-- **C6 (counterexample).** The claim says every code path that changes the
version goes through the single compare-and-increment choke point that first
checks the client-supplied expected version.  But the `approve` endpoint —
whose signature carries no client version at all and which checks only that
the status is `submitted` — changes the stored version from 5 to 6 here via
`increment_version()`.  (The status field of the stored row stays
`submitted`: the handler's `save()` is commented out and
`increment_version`'s `refresh_from_db` discards the unsaved assignments,
so the only persisted effect is the version bump.) -/
theorem C6_choke_point_counterexample :
    (approve submittedState 1 9 0 "").toOption.map (fun p => (p.2.version, p.2.status)) =
      some (6, "submitted")
    ∧ (getInspection submittedState 1).map Inspection.version = some 5 := by
  constructor <;> rfl

/-- **C6 (amended).** Every successful mutation increments the aggregate's
version by exactly 1: a successful `update_inspection` (with a fresh or
absent idempotency key, i.e. an actual mutation rather than a cached replay)
moves the stored version `cv` to `cv + 1`, and successful `approve` and
`reject` calls move the stored version to its successor via
`increment_version`.  However, `approve`/`reject` are version-changing paths
*outside* `update_inspection`'s compare-and-increment check: they consult no
client-supplied expected version (see the counterexample). -/
theorem C6_version_increment_amended :
    (∀ st iid data cv key now st' i',
        (∀ k, key = some k → IdempotencyService.exists_ st k = false) →
        InspectionService.update_inspection st iid data cv key now =
          Except.ok (st', i') →
        (getInspection st iid).map Inspection.version = some cv ∧
          i'.version = cv + 1)
    ∧ (∀ st pk u now notes st' i',
        approve st pk u now notes = Except.ok (st', i') →
        (getInspection st pk).map (fun j => j.version + 1) = some i'.version)
    ∧ (∀ st pk u now notes st' i',
        reject st pk u now notes = Except.ok (st', i') →
        (getInspection st pk).map (fun j => j.version + 1) = some i'.version) := by
  refine ⟨?_, ?_, ?_⟩
  · intro st iid data cv key now st' i' hkey hok
    cases key with
    | none =>
        obtain ⟨insp, hg, hv, hi, _⟩ := update_none_ok_inv hok
        subst hv
        subst hi
        simp [hg]
    | some k =>
        exact absurd hok (update_fresh_some_not_ok (hkey k rfl))
  · intro st pk u now notes st' i' hok
    obtain ⟨insp, hg, _, hi, _⟩ := approve_ok_inv hok
    subst hi
    simp [hg]
  · intro st pk u now notes st' i' hok
    obtain ⟨insp, hg, _, hi, _⟩ := reject_ok_inv hok
    subst hi
    simp [hg]

/-- C6 witness: the base-state update moves version 1 to 2, and approving the
submitted inspection at version 5 yields version 6. -/
theorem C6_version_increment_amended_witness :
    ((getInspection baseState 1).map Inspection.version = some 1
      ∧ ({ InspectionService.applyFields insp1 { facility_name := some "New" } 0 with
            version := insp1.version + 1 } : Inspection).version = 1 + 1)
    ∧ (getInspection submittedState 1).map (fun j => j.version + 1) = some 6 := by
  constructor
  · exact C6_version_increment_amended.1 baseState 1 { facility_name := some "New" } 1
      none 0
      (saveInspection baseState
        { InspectionService.applyFields insp1 { facility_name := some "New" } 0 with
            version := insp1.version + 1 })
      ({ InspectionService.applyFields insp1 { facility_name := some "New" } 0 with
          version := insp1.version + 1 })
      (fun k h => by cases h) rfl
  · exact C6_version_increment_amended.2.1 submittedState 1 9 0 ""
      (saveInspection submittedState { insp1 with status := "submitted", version := 6 })
      ({ insp1 with status := "submitted", version := 6 }) rfl

theorem saveInspection_ledger (st : SysState) (i : Inspection) :
    (saveInspection st i).ledger = st.ledger := rfl

theorem saveInspection_conflicts (st : SysState) (i : Inspection) :
    (saveInspection st i).conflicts = st.conflicts := rfl

theorem getInspection_ledger_irrel (st : SysState) (L : List LedgerEntry) (iid : Nat) :
    getInspection { st with ledger := L } iid = getInspection st iid := rfl

theorem get_result_eq_none_find? {st : SysState} {k : String}
    (h : IdempotencyService.get_result st k = none) :
    st.ledger.find? (fun e => e.idempotency_key == k) = none := by
  unfold IdempotencyService.get_result at h
  exact Option.map_eq_none'.mp h

/-- Inversion of a fresh-key success of `process_operation`: the CREATE
branch can never succeed (the serializer's `source="template"` renaming
starves `create_inspection` of `template_id`), so a success is an UPDATE
whose version matched; the mutated row is saved, the result is recorded in
the ledger under the key, and nothing else changes. -/
theorem process_operation_fresh_ok_inv {st : SysState} {ot key : String} {data : OpData}
    {u now : Nat} {st₁ : SysState} {r₁ : OpResult}
    (hfresh : IdempotencyService.get_result st key = none)
    (hok : BatchSyncService.process_operation st ot key data u now =
      Except.ok (st₁, r₁)) :
    ∃ iid insp,
      ot = "UPDATE_INSPECTION"
      ∧ data.id = some iid
      ∧ getInspection st iid = some insp
      ∧ data.version = some insp.version
      ∧ r₁ = ⟨iid, insp.version + 1⟩
      ∧ getInspection st₁ iid =
          some { InspectionService.applyFields insp data now with
                  version := insp.version + 1 }
      ∧ IdempotencyService.get_result st₁ key = some r₁
      ∧ st₁.ledger = st.ledger ++ [⟨key, ot, iid, u, r₁⟩]
      ∧ st₁.conflicts = st.conflicts
      ∧ st₁.templates = st.templates := by
  have hfind := get_result_eq_none_find? hfresh
  simp only [BatchSyncService.process_operation, hfresh] at hok
  by_cases hc : ot = "CREATE_INSPECTION"
  · exfalso
    subst hc
    have hself : (("CREATE_INSPECTION" : String) == "CREATE_INSPECTION") = true := rfl
    simp only [hself, if_true] at hok
    by_cases hval : createSerializerValid st data = true
    · simp [hval, InspectionService.create_inspection, createValidatedData] at hok
    · simp [hval] at hok
  · by_cases hu : ot = "UPDATE_INSPECTION"
    · subst hu
      have h1 : (("UPDATE_INSPECTION" : String) == "CREATE_INSPECTION") = false := by decide
      have h2 : (("UPDATE_INSPECTION" : String) == "UPDATE_INSPECTION") = true := rfl
      simp only [h1, Bool.false_eq_true, if_false, h2, if_true] at hok
      by_cases hval : updateSerializerValid data = true
      · simp only [hval, not_true, if_false, Bool.not_true] at hok
        cases hid : data.id with
        | none => simp [hid] at hok
        | some iid =>
            simp only [hid] at hok
            cases hver : data.version with
            | none => simp [hver] at hok
            | some cv =>
                simp only [hver] at hok
                by_cases hz : (cv == 0) = true
                · simp [hz] at hok
                · simp only [hz, Bool.false_eq_true, if_false] at hok
                  cases hupd : InspectionService.update_inspection st iid data cv none now with
                  | error e => simp [hupd] at hok
                  | ok p =>
                      obtain ⟨st', i'⟩ := p
                      obtain ⟨insp, hg, hv, hi, hst⟩ := update_none_ok_inv hupd
                      have hiid : insp.id = iid := (getInspection_eq_some hg).1
                      have hdel : insp.is_deleted = false := (getInspection_eq_some hg).2
                      subst hst
                      simp only [hupd, IdempotencyService.record, saveInspection_ledger,
                        hfind, Except.ok.injEq, Prod.mk.injEq] at hok
                      obtain ⟨hA, hB⟩ := hok
                      subst hA
                      subst hB
                      refine ⟨iid, insp, rfl, rfl, hg, ?_, ?_, ?_, ?_, ?_, rfl, rfl⟩
                      · rw [hv]
                      · subst hi
                        simp [applyFields_id, hiid]
                      · subst hi
                        rw [getInspection_ledger_irrel]
                        exact getInspection_save hg (by simp [applyFields_id, hiid])
                          (by simp [applyFields_is_deleted, hdel])
                      · subst hi
                        unfold IdempotencyService.get_result
                        simp only
                        rw [find?_ledger_append_none hfind _ rfl]
                        simp [applyFields_id, hiid]
                      · subst hi
                        simp [applyFields_id, hiid]
      · simp [hval] at hok
    · exfalso
      have h1 : (ot == "CREATE_INSPECTION") = false := by
        simp [hc]
      have h2 : (ot == "UPDATE_INSPECTION") = false := by
        simp [hu]
      simp [h1, h2] at hok

/-- **C2.** Single-operation sync path replay: when a first call with a fresh
idempotency key completes successfully, a second call with the same key and
payload returns exactly the stored result (`r₁`, byte-identical) and exactly
the same state (`st₁`, no mutation), and the target aggregate's version has
advanced by exactly 1 across the two calls. -/
theorem C2_idempotent_replay (st : SysState) (ot key : String) (data : OpData)
    (u now : Nat) (st₁ : SysState) (r₁ : OpResult)
    (hfresh : IdempotencyService.get_result st key = none)
    (hok : BatchSyncService.process_operation st ot key data u now =
      Except.ok (st₁, r₁)) :
    BatchSyncService.process_operation st₁ ot key data u now = Except.ok (st₁, r₁)
    ∧ (∀ iid, data.id = some iid →
        (getInspection st₁ iid).map Inspection.version =
          (getInspection st iid).map (fun j => j.version + 1)) := by
  obtain ⟨iid, insp, _, hid, hg, _, _, hg₁, hcache, _, _, _⟩ :=
    process_operation_fresh_ok_inv hfresh hok
  constructor
  · simp [BatchSyncService.process_operation, hcache]
  · intro iid' hid'
    rw [hid'] at hid
    cases hid
    rw [hg₁, hg]
    rfl

/-- A valid fresh update payload against the base state. -/
def d1 : OpData :=
  { id := some 1, facility_name := some "A1", facility_address := some "B1",
    responses := some "r1", version := some 1 }

/-- The inspection after applying `d1` to `insp1`. -/
def c2Insp : Inspection :=
  { insp1 with
    facility_name := "A1"
    facility_address := "B1"
    responses := "r1"
    version := 2 }

/-- The state after the first successful sync call with key `"a"`. -/
def c2State : SysState :=
  { templates := [10], inspections := [c2Insp],
    ledger := [⟨"a", "UPDATE_INSPECTION", 1, 7, ⟨1, 2⟩⟩], conflicts := [] }

/-- C2 witness: the replayed call at the post-state returns the identical
result and state, and version 1 advanced to 2 across the pair of calls. -/
theorem C2_idempotent_replay_witness :
    BatchSyncService.process_operation c2State "UPDATE_INSPECTION" "a" d1 7 0 =
      Except.ok (c2State, ⟨1, 2⟩)
    ∧ (getInspection c2State 1).map Inspection.version =
        (getInspection baseState 1).map (fun j => j.version + 1) := by
  have h := C2_idempotent_replay baseState "UPDATE_INSPECTION" "a" d1 7 0 c2State
    ⟨1, 2⟩ rfl rfl
  exact ⟨h.1, h.2 1 rfl⟩

/-- **C3.** When a batch item's processing ends in a conflict, no idempotency
ledger entry is created for the item's key (the ledger — and in particular
the key's cache-miss status — is unchanged, so a later retry with a
corrected version reaches the mutation path instead of a cached result), the
inspections table is untouched, and a `ConflictRecord` capturing the client
patch and server snapshot is appended; the item's outcome is the conflict
result. -/
theorem C3_conflict_not_cached (st : SysState) (idx : Nat) (op : RawOp) (u now : Nat)
    (st' : SysState) (res : BatchResult)
    (h : BatchSyncService.processItem st idx op u now = (st', res))
    (hconf : res.tag = "conflict") :
    st'.ledger = st.ledger
    ∧ st'.inspections = st.inspections
    ∧ (IdempotencyService.get_result st op.idempotency_key = none →
        IdempotencyService.get_result st' op.idempotency_key = none)
    ∧ ∃ snap cv sv,
        res = .conflictRes idx op.idempotency_key op.operation_type cv sv snap
        ∧ st'.conflicts = st.conflicts ++ [⟨snap.id, cv, sv, op.data, snap⟩] := by
  unfold BatchSyncService.processItem at h
  cases hpo : BatchSyncService.process_operation st op.operation_type
      op.idempotency_key op.data u now with
  | ok p =>
      rw [hpo] at h
      obtain ⟨p1, p2⟩ := p
      simp only [Prod.mk.injEq] at h
      obtain ⟨_, h2⟩ := h
      subst h2
      simp [BatchResult.tag] at hconf
  | error e =>
      cases e with
      | conflict snap cv sv =>
          rw [hpo] at h
          simp only [Prod.mk.injEq] at h
          obtain ⟨h1, h2⟩ := h
          subst h1
          subst h2
          refine ⟨rfl, rfl, fun hn => hn, snap, cv, sv, rfl, rfl⟩
      | err m =>
          rw [hpo] at h
          simp only [Prod.mk.injEq] at h
          obtain ⟨_, h2⟩ := h
          subst h2
          simp [BatchResult.tag] at hconf

/-- The conflicting update payload for inspection 2 (server version 2,
client sends 1). -/
def d2 : OpData :=
  { id := some 2, facility_name := some "A2", facility_address := some "B2",
    responses := some "r2", version := some 1 }

/-- Inspection 2: a draft at version 2, so a client update carrying
version 1 conflicts. -/
def insp2 : Inspection := { insp1 with id := 2, version := 2 }

/-- Inspection 3: another draft at version 1. -/
def insp3 : Inspection := { insp1 with id := 3 }

/-- State holding the three inspections used by the batch scenarios. -/
def batch3State : SysState :=
  { templates := [10], inspections := [insp1, insp2, insp3], ledger := [],
    conflicts := [] }

/-- The conflicting batch item. -/
def op2 : RawOp := ⟨"UPDATE_INSPECTION", "b", d2⟩

/-- C3 witness: processing the conflicting item leaves ledger and
inspections unchanged, the key still a cache miss. -/
theorem C3_conflict_not_cached_witness :
    (BatchSyncService.processItem batch3State 1 op2 7 0).1.ledger = batch3State.ledger
    ∧ (BatchSyncService.processItem batch3State 1 op2 7 0).1.inspections =
        batch3State.inspections
    ∧ IdempotencyService.get_result (BatchSyncService.processItem batch3State 1 op2 7 0).1
        op2.idempotency_key = none := by
  have h := C3_conflict_not_cached batch3State 1 op2 7 0
    (BatchSyncService.processItem batch3State 1 op2 7 0).1
    (BatchSyncService.processItem batch3State 1 op2 7 0).2 rfl (by decide)
  exact ⟨h.1, h.2.1, h.2.2.1 (by decide)⟩

/-! ### Batch-processing lemmas -/

theorem tag_cases (r : BatchResult) :
    r.tag = "success" ∨ r.tag = "conflict" ∨ r.tag = "error" := by
  cases r <;> simp [BatchResult.tag]

theorem processItem_index (st : SysState) (idx : Nat) (op : RawOp) (u now : Nat) :
    (BatchSyncService.processItem st idx op u now).2.index = idx
    ∧ (BatchSyncService.processItem st idx op u now).2.key = op.idempotency_key := by
  unfold BatchSyncService.processItem
  cases BatchSyncService.process_operation st op.operation_type op.idempotency_key
      op.data u now with
  | ok p =>
      obtain ⟨a, b⟩ := p
      simp [BatchResult.index, BatchResult.key]
  | error e => cases e <;> simp [BatchResult.index, BatchResult.key]

theorem processItem_failure (st : SysState) (idx : Nat) (op : RawOp) (u now : Nat)
    (h : (BatchSyncService.processItem st idx op u now).2.isSuccess = false) :
    (BatchSyncService.processItem st idx op u now).1.inspections = st.inspections
    ∧ (BatchSyncService.processItem st idx op u now).1.ledger = st.ledger := by
  unfold BatchSyncService.processItem at h ⊢
  cases hpo : BatchSyncService.process_operation st op.operation_type
      op.idempotency_key op.data u now with
  | ok p =>
      rw [hpo] at h
      obtain ⟨a, b⟩ := p
      simp [BatchResult.isSuccess] at h
  | error e => cases e <;> simp

theorem processBatchAux_spec (ops : List RawOp) : ∀ (st : SysState) (idx u now : Nat),
    (BatchSyncService.processBatchAux st idx ops u now).2.length = ops.length
    ∧ (∀ (i : Nat) (r : BatchResult),
        ((BatchSyncService.processBatchAux st idx ops u now).2)[i]? = some r →
        r.index = idx + i ∧ (ops[i]?).map RawOp.idempotency_key = some r.key) := by
  induction ops with
  | nil =>
      intro st idx u now
      constructor
      · simp [BatchSyncService.processBatchAux]
      · intro i r h
        simp [BatchSyncService.processBatchAux] at h
  | cons op rest ih =>
      intro st idx u now
      constructor
      · simp [BatchSyncService.processBatchAux,
          (ih (BatchSyncService.processItem st idx op u now).1 (idx + 1) u now).1]
      · intro i r h
        simp only [BatchSyncService.processBatchAux] at h
        cases i with
        | zero =>
            simp only [List.getElem?_cons_zero, Option.some.injEq] at h
            subst h
            refine ⟨by simpa using (processItem_index st idx op u now).1, ?_⟩
            simp [(processItem_index st idx op u now).2]
        | succ n =>
            simp only [List.getElem?_cons_succ] at h
            have hr := (ih (BatchSyncService.processItem st idx op u now).1
              (idx + 1) u now).2 n r h
            constructor
            · rw [hr.1]; omega
            · simpa using hr.2

/-- The first and third (non-conflicting) batch items. -/
def op1 : RawOp := ⟨"UPDATE_INSPECTION", "a", d1⟩

/-- Update payload for inspection 3 at matching version 1. -/
def d3 : OpData :=
  { id := some 3, facility_name := some "A3", facility_address := some "B3",
    responses := some "r3", version := some 1 }

/-- The third batch item. -/
def op3 : RawOp := ⟨"UPDATE_INSPECTION", "c", d3⟩

/-- **C4.** Batch processing is per-item and order-preserving: for every
batch of at most 100 operations the output has one outcome per input in
input order (outcome `i` carries index `i` and the `i`-th item's idempotency
key, tagged success / conflict / error); a failing or conflicting item
contributes no inspection or ledger change (its own inner transaction is
rolled back, nothing else is); and in the concrete 3-item batch where item 2
conflicts, items 1 and 3 are applied (both reach version 2) while item 2's
aggregate is untouched, the response reading `[success, conflict, success]`. -/
theorem C4_batch_isolation :
    (∀ st ops u now, ops.length ≤ 100 →
        (BatchSyncService.process_batch st ops u now).2.length = ops.length
        ∧ (∀ (i : Nat) (r : BatchResult),
            ((BatchSyncService.process_batch st ops u now).2)[i]? = some r →
            r.index = i
            ∧ (ops[i]?).map RawOp.idempotency_key = some r.key
            ∧ (r.tag = "success" ∨ r.tag = "conflict" ∨ r.tag = "error")))
    ∧ (∀ st idx op u now,
        (BatchSyncService.processItem st idx op u now).2.isSuccess = false →
        (BatchSyncService.processItem st idx op u now).1.inspections = st.inspections
        ∧ (BatchSyncService.processItem st idx op u now).1.ledger = st.ledger)
    ∧ ((BatchSyncService.process_batch batch3State [op1, op2, op3] 7 0).2.map
          BatchResult.tag = ["success", "conflict", "success"]
        ∧ (getInspection
            (BatchSyncService.process_batch batch3State [op1, op2, op3] 7 0).1 1).map
            Inspection.version = some 2
        ∧ (getInspection
            (BatchSyncService.process_batch batch3State [op1, op2, op3] 7 0).1 2).map
            Inspection.version = some 2
        ∧ (getInspection
            (BatchSyncService.process_batch batch3State [op1, op2, op3] 7 0).1 3).map
            Inspection.version = some 2) := by
  refine ⟨?_, ?_, ?_⟩
  · intro st ops u now _
    unfold BatchSyncService.process_batch
    have hs := processBatchAux_spec ops st 0 u now
    refine ⟨hs.1, fun i r h => ?_⟩
    have hr := hs.2 i r h
    exact ⟨by simpa using hr.1, hr.2, tag_cases r⟩
  · intro st idx op u now h
    exact processItem_failure st idx op u now h
  · refine ⟨by decide, by decide, by decide, by decide⟩

/-- C4 witness: the 3-item batch yields 3 outcomes, and the conflicting
item 2 contributes no inspection or ledger change. -/
theorem C4_batch_isolation_witness :
    (BatchSyncService.process_batch batch3State [op1, op2, op3] 7 0).2.length = 3
    ∧ ((BatchSyncService.processItem batch3State 1 op2 7 0).1.inspections =
          batch3State.inspections
        ∧ (BatchSyncService.processItem batch3State 1 op2 7 0).1.ledger =
            batch3State.ledger) := by
  constructor
  · exact (C4_batch_isolation.1 batch3State [op1, op2, op3] 7 0 (by decide)).1
  · exact C4_batch_isolation.2.1 batch3State 1 op2 7 0 (by decide)

/-- A batch item with an unknown operation type. -/
def opX : RawOp := ⟨"DELETE_INSPECTION", "x", d2⟩

/-- **C8 (counterexample).** The claim says an unknown `operation_type`
fails only that item while the rest of the batch is processed.  But
`BatchSyncOperationSerializer.operation_type` is a `ChoiceField` restricted
to the two known values, and `batch_sync` validates the request serializer
with `raise_exception=True` before processing: a 3-item batch whose middle
item has type `DELETE_INSPECTION` is rejected wholesale — no item (including
the two valid ones) is processed. -/
theorem C8_unknown_type_counterexample :
    batch_sync batch3State [op1, opX, op3] 7 0 =
      Except.error (ApiError.validationError "operation_type is not a valid choice") := by
  rfl

/-- **C8 (amended).** At the API layer, a batch containing any item whose
`operation_type` is not `CREATE_INSPECTION`/`UPDATE_INSPECTION` is rejected
wholesale by serializer validation before any item is processed.  Only when
`BatchSyncService.process_batch`/`process_operation` is invoked directly
below the serializer does an unknown type (with a cache-miss key) fail that
single item with `ValueError("Invalid operation type: ...")` — not an
`UnsupportedOperation` — while the remaining items are still processed from
an unchanged state. -/
theorem C8_unknown_type_amended :
    (∀ st ops u now op, op ∈ ops →
        op.operation_type ≠ "CREATE_INSPECTION" →
        op.operation_type ≠ "UPDATE_INSPECTION" →
        batch_sync st ops u now =
          Except.error (ApiError.validationError "operation_type is not a valid choice"))
    ∧ (∀ st ot key data u now,
        IdempotencyService.get_result st key = none →
        ot ≠ "CREATE_INSPECTION" → ot ≠ "UPDATE_INSPECTION" →
        BatchSyncService.process_operation st ot key data u now =
          Except.error (OpError.err ("Invalid operation type: " ++ ot)))
    ∧ (∀ st idx op rest u now,
        (BatchSyncService.processItem st idx op u now).2.tag = "error" →
        (BatchSyncService.processItem st idx op u now).1 = st
        ∧ BatchSyncService.processBatchAux st idx (op :: rest) u now =
            ((BatchSyncService.processBatchAux st (idx + 1) rest u now).1,
             (BatchSyncService.processItem st idx op u now).2 ::
               (BatchSyncService.processBatchAux st (idx + 1) rest u now).2)) := by
  refine ⟨?_, ?_, ?_⟩
  · intro st ops u now op hmem hc hu
    have hinvalid : batchItemValid op = false := by
      unfold batchItemValid
      have h1 : (op.operation_type == "CREATE_INSPECTION") = false := by
        simp [hc]
      have h2 : (op.operation_type == "UPDATE_INSPECTION") = false := by
        simp [hu]
      simp [h1, h2]
    have hall : ops.all batchItemValid = false := by
      cases hb : ops.all batchItemValid with
      | false => rfl
      | true =>
          have := List.all_eq_true.mp hb op hmem
          rw [hinvalid] at this
          exact absurd this (by simp)
    simp [batch_sync, hall]
  · intro st ot key data u now hfresh hc hu
    have h1 : (ot == "CREATE_INSPECTION") = false := by simp [hc]
    have h2 : (ot == "UPDATE_INSPECTION") = false := by simp [hu]
    simp [BatchSyncService.process_operation, hfresh, h1, h2]
  · intro st idx op rest u now htag
    have hst : (BatchSyncService.processItem st idx op u now).1 = st := by
      unfold BatchSyncService.processItem at htag ⊢
      cases hpo : BatchSyncService.process_operation st op.operation_type
          op.idempotency_key op.data u now with
      | ok p =>
          rw [hpo] at htag
          obtain ⟨a, b⟩ := p
          simp [BatchResult.tag] at htag
      | error e =>
          rw [hpo] at htag
          cases e with
          | conflict snap cv sv => simp [BatchResult.tag] at htag
          | err m => rfl
    refine ⟨hst, ?_⟩
    conv_lhs => rw [BatchSyncService.processBatchAux]
    rw [hst]

/-- C8 witness: a singleton batch with the unknown type is rejected at the
API layer; the service layer fails just that item with the `ValueError`
message and continues the batch from an unchanged state. -/
theorem C8_unknown_type_amended_witness :
    batch_sync batch3State [opX] 7 0 =
      Except.error (ApiError.validationError "operation_type is not a valid choice")
    ∧ BatchSyncService.process_operation batch3State "DELETE_INSPECTION" "x" d2 7 0 =
        Except.error (OpError.err ("Invalid operation type: " ++ "DELETE_INSPECTION"))
    ∧ ((BatchSyncService.processItem batch3State 0 opX 7 0).1 = batch3State
        ∧ BatchSyncService.processBatchAux batch3State 0 [opX, op3] 7 0 =
            ((BatchSyncService.processBatchAux batch3State 1 [op3] 7 0).1,
             (BatchSyncService.processItem batch3State 0 opX 7 0).2 ::
               (BatchSyncService.processBatchAux batch3State 1 [op3] 7 0).2)) := by
  refine ⟨?_, ?_, ?_⟩
  · exact C8_unknown_type_amended.1 batch3State [opX] 7 0 opX (by simp)
      (by decide) (by decide)
  · exact C8_unknown_type_amended.2.1 batch3State "DELETE_INSPECTION" "x" d2 7 0 rfl
      (by decide) (by decide)
  · exact C8_unknown_type_amended.2.2 batch3State 0 opX [op3] 7 0 (by decide)

/-- **C9.** An oversized batch (more than 100 operations) is rejected before
any item is processed: `batch_sync` never returns a success, and when the
items themselves are well-formed the error is precisely the serializer's
`"Maximum 100 operations per batch"` validation failure.  (The `.error`
return carries no state: no mutation, ledger entry or conflict record is
produced.) -/
theorem C9_oversized_batch_rejected (st : SysState) (ops : List RawOp) (u now : Nat)
    (hlen : ops.length > 100) :
    (∀ r, batch_sync st ops u now ≠ Except.ok r)
    ∧ (ops.all batchItemValid = true →
        batch_sync st ops u now =
          Except.error (ApiError.validationError "Maximum 100 operations per batch")) := by
  constructor
  · intro r
    unfold batch_sync
    by_cases hall : ops.all batchItemValid = true
    · simp [hall, hlen]
    · simp [hall]
  · intro hall
    simp [batch_sync, hall, hlen]

/-- C9 witness: a batch of 101 copies of a valid operation is rejected with
the length validation error. -/
theorem C9_oversized_batch_rejected_witness :
    batch_sync baseState (List.replicate 101 op1) 7 0 =
      Except.error (ApiError.validationError "Maximum 100 operations per batch") := by
  have hall : (List.replicate 101 op1).all batchItemValid = true := by
    rw [List.all_eq_true]
    intro x hx
    rw [List.eq_of_mem_replicate hx]
    decide
  exact (C9_oversized_batch_rejected baseState (List.replicate 101 op1) 7 0
    (by rw [List.length_replicate]; omega)).2 hall

end FieldInspector
